import Mathlib

/-
Verification of the AdvAuth session/token lifecycle engine
(`src/modules/auth/auth.service.ts`) in a shallow embedding.

Times are natural numbers (milliseconds since the epoch), ids are natural
numbers assigned by a counter, tokens are a symbolic datatype recording the
signing secret and the embedded payload.  Each service operation returns the
logical result (`Except AuthError _`), the updated store state, and the list
of store operations it performed, so that ordering claims ("the store is
consulted only after verification succeeds") are expressible.
-/

namespace AdvAuth

/-- Machine-readable error codes (`error-code.enum`): the two codes raised in
`auth.service.ts`, plus the default code of `UnauthorizedException`. -/
inductive ErrorCode where
  | AUTH_EMAIL_ALREADY_EXISTS
  | AUTH_USER_NOT_FOUND
  | AUTH_UNAUTHORIZED_ACCESS
  deriving DecidableEq, Repr

/-- Typed failures.  Modelled from the spec: the `catch-error` utility classes
(`BadRequestException`, `UnauthorizedException`) are not under src; per the
spec's error-handling design each failure carries a stable machine-readable
code plus a human message, and `UnauthorizedException` is raised in
`auth.service.ts` with a message only, so its default code is modelled here. -/
inductive AuthError where
  | badRequest (message : String) (code : ErrorCode)
  | unauthorized (message : String) (code : ErrorCode)
  deriving DecidableEq, Repr

def AuthError.code : AuthError → ErrorCode
  | .badRequest _ c => c
  | .unauthorized _ c => c

def AuthError.message : AuthError → String
  | .badRequest m _ => m
  | .unauthorized m _ => m

def BadRequestException (message : String) (code : ErrorCode) : AuthError :=
  .badRequest message code

/-- Modelled from the spec: `UnauthorizedException` is constructed in
`auth.service.ts` with a message only; the class supplies a default
unauthorized code. -/
def UnauthorizedException (message : String) : AuthError :=
  .unauthorized message .AUTH_UNAUTHORIZED_ACCESS

/-- Modelled from the spec: `date-time` utility constant, one day in
milliseconds (the fixed rotation threshold). -/
def ONE_DAY_IN_MS : Nat := 24 * 60 * 60 * 1000

/-- Modelled from the spec: `date-time` helper, 45 minutes from the current
time (verification-code TTL). -/
def fortyFiveMinutesFromNow (now : Nat) : Nat := now + 45 * 60 * 1000

/-- Modelled from the spec: `calculateExpirationDate(config.JWT.REFRESH_EXPIRES_IN)`
yields the current time plus the configured refresh TTL. -/
def calculateExpirationDate (now ttl : Nat) : Nat := now + ttl

/-- Modelled from the spec: configuration surface — access/refresh secrets and
the refresh TTL in milliseconds (`app.config` is not under src). -/
structure Config where
  accessSecret : String
  refreshSecret : String
  refreshTTL : Nat
  deriving DecidableEq, Repr

/-- User record: id, email (unique), stored credential, MFA preference flag. -/
structure User where
  id : Nat
  name : String
  email : String
  password : String
  enable2FA : Bool
  deriving DecidableEq, Repr

/-- Session record: id, owning user id, client metadata, expiration. -/
structure Session where
  id : Nat
  userId : Nat
  userAgent : String
  expiredAt : Nat
  deriving DecidableEq, Repr

/-- Verification-code type tags (`verification-code.enum`). -/
inductive VerificationEnum where
  | EMAIL_VERIFICATION
  | PASSWORD_RESET
  deriving DecidableEq, Repr

/-- Verification-code record created at registration. -/
structure VerificationCode where
  id : Nat
  userId : Nat
  vtype : VerificationEnum
  expiresAt : Nat
  deriving DecidableEq, Repr

/-- Access-token payload: `{userId, sessionId}`. -/
structure AccessTPayload where
  userId : Nat
  sessionId : Nat
  deriving DecidableEq, Repr

/-- Refresh-token payload: `{sessionId}` only — no user id. -/
structure RefreshTPayload where
  sessionId : Nat
  deriving DecidableEq, Repr

/-- Symbolic signed token.  `empty` models the sentinel empty string `""`
returned on the MFA short-circuit; a signed token records which secret
signed it and the embedded payload. -/
inductive Token where
  | empty
  | access (secret : String) (payload : AccessTPayload)
  | refresh (secret : String) (payload : RefreshTPayload)
  deriving DecidableEq, Repr

/-- Modelled from the spec: `signJwtToken` with the default (access) signing
options — signs the `{userId, sessionId}` payload under the access secret. -/
def signAccessToken (cfg : Config) (p : AccessTPayload) : Token :=
  .access cfg.accessSecret p

/-- Modelled from the spec: `signJwtToken` with `refreshTokenSignOptions` —
signs the `{sessionId}` payload under the refresh secret. -/
def signRefreshToken (cfg : Config) (p : RefreshTPayload) : Token :=
  .refresh cfg.refreshSecret p

/-- Modelled from the spec: `verifyJwtToken<RefreshTPayload>` under a given
secret — succeeds exactly on a refresh-shaped token signed with that secret,
and fails (no payload) on a malformed/empty token, an access token, or a
wrong secret. -/
def verifyRefreshJwt (secret : String) : Token → Option RefreshTPayload
  | .refresh s p => if s = secret then some p else none
  | _ => none

/-- Durable store state: users, sessions, verification codes, and the next
fresh record id. -/
structure AuthState where
  users : List User
  sessions : List Session
  verificationCodes : List VerificationCode
  nextId : Nat
  deriving DecidableEq, Repr

/-- `RegisterDto`. -/
structure RegisterDto where
  name : String
  email : String
  password : String
  deriving DecidableEq, Repr

/-- `LoginDto`. -/
structure LoginDto where
  email : String
  password : String
  userAgent : String
  deriving DecidableEq, Repr

/-- Store operations performed by a service call, in order. -/
inductive StoreOp where
  | userExists (email : String)
  | userCreate (id : Nat)
  | userFindOne (email : String)
  | verificationCreate (id : Nat)
  | sessionCreate (id : Nat)
  | sessionFindById (id : Nat)
  | sessionSave (id : Nat)
  deriving DecidableEq, Repr

/-- `UserModel.exists({email})`. -/
def userExists (st : AuthState) (email : String) : Bool :=
  st.users.any (fun u => u.email = email)

/-- `UserModel.findOne({email})`. -/
def findUserByEmail (st : AuthState) (email : String) : Option User :=
  st.users.find? (fun u => u.email = email)

/-- `SessionModel.findById(id)`. -/
def findSessionById (st : AuthState) (id : Nat) : Option Session :=
  st.sessions.find? (fun s => s.id = id)

/-- `session.save()`: persist the updated session record under its id. -/
def saveSession (st : AuthState) (s : Session) : AuthState :=
  { st with sessions := st.sessions.map (fun t => if t.id = s.id then s else t) }

/-- Modelled from the spec: `user.comparePassword` — the Credential Store
verifies the submitted password against the stored credential; hashing is the
store's responsibility, so the check is equality with the stored credential. -/
def comparePassword (u : User) (p : String) : Bool :=
  u.password = p

/-- `register` returns `{user}`. -/
structure RegisterResult where
  user : User
  deriving DecidableEq, Repr

/-- `AuthService.register`: reject a duplicate email, otherwise create the
user and an EMAIL_VERIFICATION code expiring 45 minutes from now, and return
the created user.  No tokens are issued. -/
def register (st : AuthState) (d : RegisterDto) (now : Nat) :
    Except AuthError RegisterResult × AuthState × List StoreOp :=
  if userExists st d.email then
    (.error (BadRequestException "User already exists with this email"
        .AUTH_EMAIL_ALREADY_EXISTS),
     st, [.userExists d.email])
  else
    let newUser : User :=
      { id := st.nextId, name := d.name, email := d.email,
        password := d.password, enable2FA := false }
    let st1 : AuthState :=
      { st with users := st.users ++ [newUser], nextId := st.nextId + 1 }
    let verification : VerificationCode :=
      { id := st1.nextId, userId := newUser.id, vtype := .EMAIL_VERIFICATION,
        expiresAt := fortyFiveMinutesFromNow now }
    let st2 : AuthState :=
      { st1 with verificationCodes := st1.verificationCodes ++ [verification],
                 nextId := st1.nextId + 1 }
    (.ok { user := newUser }, st2,
     [.userExists d.email, .userCreate newUser.id, .verificationCreate verification.id])

/-- `login` returns `{user, accessToken, refreshToken, mfaRequired}`. -/
structure LoginResult where
  user : Option User
  accessToken : Token
  refreshToken : Token
  mfaRequired : Bool
  deriving DecidableEq, Repr

/-- `AuthService.login`: look up the user by email; absent user and wrong
password both fail with the same `AUTH_USER_NOT_FOUND` failure; an MFA-enabled
user short-circuits with null user and empty tokens; otherwise create one
session (initial expiration now + refresh TTL, modelled from the spec since
the session model's default is not under src) and sign the two tokens. -/
def login (cfg : Config) (st : AuthState) (d : LoginDto) (now : Nat) :
    Except AuthError LoginResult × AuthState × List StoreOp :=
  match findUserByEmail st d.email with
  | none =>
      (.error (BadRequestException "Invalid email or password provided"
          .AUTH_USER_NOT_FOUND),
       st, [.userFindOne d.email])
  | some user =>
      if comparePassword user d.password = false then
        (.error (BadRequestException "Invalid email or password provided"
            .AUTH_USER_NOT_FOUND),
         st, [.userFindOne d.email])
      else if user.enable2FA then
        (.ok { user := none, mfaRequired := true,
               accessToken := .empty, refreshToken := .empty },
         st, [.userFindOne d.email])
      else
        let session : Session :=
          { id := st.nextId, userId := user.id, userAgent := d.userAgent,
            expiredAt := now + cfg.refreshTTL }
        let st1 : AuthState :=
          { st with sessions := st.sessions ++ [session], nextId := st.nextId + 1 }
        let accessToken :=
          signAccessToken cfg { userId := user.id, sessionId := session.id }
        let refreshTok := signRefreshToken cfg { sessionId := session.id }
        (.ok { user := some user, accessToken := accessToken,
               refreshToken := refreshTok, mfaRequired := false },
         st1, [.userFindOne d.email, .sessionCreate session.id])

/-- `refreshToken` returns `{accessToken, newRefreshToken?}`. -/
structure RefreshResult where
  accessToken : Token
  newRefreshToken : Option Token
  deriving DecidableEq, Repr

/-- `AuthService.refreshToken`: verify under the refresh signing options
(failing before any store access), look up the session, reject an expired
session, rotate (extend expiration to now + refresh TTL, persist, and sign a
new refresh token) exactly when the remaining validity is at most one day,
and always sign a fresh access token `{userId, sessionId}`. -/
def refreshToken (cfg : Config) (st : AuthState) (token : Token) (now : Nat) :
    Except AuthError RefreshResult × AuthState × List StoreOp :=
  match verifyRefreshJwt cfg.refreshSecret token with
  | none => (.error (UnauthorizedException "Invalid refresh token"), st, [])
  | some payload =>
      match findSessionById st payload.sessionId with
      | none =>
          (.error (UnauthorizedException "Session does not exist"), st,
           [.sessionFindById payload.sessionId])
      | some session =>
          if session.expiredAt ≤ now then
            (.error (UnauthorizedException "Session expired"), st,
             [.sessionFindById payload.sessionId])
          else if session.expiredAt - now ≤ ONE_DAY_IN_MS then
            let session1 : Session :=
              { session with expiredAt := calculateExpirationDate now cfg.refreshTTL }
            let st1 := saveSession st session1
            let newRefreshToken := signRefreshToken cfg { sessionId := session1.id }
            let accessToken :=
              signAccessToken cfg { userId := session1.userId, sessionId := session1.id }
            (.ok { accessToken := accessToken, newRefreshToken := some newRefreshToken },
             st1, [.sessionFindById payload.sessionId, .sessionSave session1.id])
          else
            let accessToken :=
              signAccessToken cfg { userId := session.userId, sessionId := session.id }
            (.ok { accessToken := accessToken, newRefreshToken := none }, st,
             [.sessionFindById payload.sessionId])

/-! Concrete fixtures used by witness theorems. -/

def cfg0 : Config :=
  { accessSecret := "as", refreshSecret := "rs", refreshTTL := 30 * ONE_DAY_IN_MS }

def user0 : User :=
  { id := 0, name := "u", email := "u@x", password := "pw", enable2FA := false }

def user1 : User :=
  { id := 1, name := "v", email := "v@x", password := "pw", enable2FA := true }

def session0 : Session :=
  { id := 2, userId := 0, userAgent := "ua", expiredAt := 1000000 }

def st0 : AuthState :=
  { users := [user0, user1], sessions := [session0], verificationCodes := [], nextId := 3 }

/-- Claim C6: a refresh call whose token fails verification under the
refresh signing options fails with the Unauthorized "Invalid refresh token"
failure, with the state unchanged and an empty store-operation trace: the
session store is never consulted before verification succeeds. -/
theorem refreshToken_invalid_before_store (cfg : Config) (st : AuthState)
    (token : Token) (now : Nat)
    (hv : verifyRefreshJwt cfg.refreshSecret token = none) :
    refreshToken cfg st token now =
      (.error (.unauthorized "Invalid refresh token" .AUTH_UNAUTHORIZED_ACCESS),
       st, []) := by
  simp [refreshToken, hv, UnauthorizedException]

/-- Witness for C6 at a concrete malformed (empty-string) token. -/
theorem refreshToken_invalid_before_store_witness :
    refreshToken cfg0 st0 .empty 500000 =
      (.error (.unauthorized "Invalid refresh token" .AUTH_UNAUTHORIZED_ACCESS),
       st0, []) :=
  refreshToken_invalid_before_store cfg0 st0 .empty 500000 (by decide)

/-- Claim C5: for a refresh call whose token verifies and whose session
exists, the call fails with the Unauthorized "Session expired" failure
exactly when the session's expiration is not in the future; on that failure
the returned state is the input state (no mutation) and the trace holds only
the session lookup (no save, no token issuance). -/
theorem refreshToken_expired_no_mutation (cfg : Config) (st : AuthState)
    (token : Token) (now : Nat) (payload : RefreshTPayload) (session : Session)
    (hv : verifyRefreshJwt cfg.refreshSecret token = some payload)
    (hs : findSessionById st payload.sessionId = some session) :
    ((refreshToken cfg st token now).1 =
        .error (.unauthorized "Session expired" .AUTH_UNAUTHORIZED_ACCESS)
      ↔ session.expiredAt ≤ now)
    ∧ (session.expiredAt ≤ now →
        refreshToken cfg st token now =
          (.error (.unauthorized "Session expired" .AUTH_UNAUTHORIZED_ACCESS),
           st, [.sessionFindById payload.sessionId])) := by
  by_cases hexp : session.expiredAt ≤ now
  · simp [refreshToken, hv, hs, hexp, UnauthorizedException]
  · refine ⟨?_, fun h => absurd h hexp⟩
    simp only [refreshToken, hv, hs, if_neg hexp]
    split <;> simp [hexp]

/-- Witness for C5 at a session expired 1 ms before the call. -/
theorem refreshToken_expired_no_mutation_witness :
    ((refreshToken cfg0 st0 (.refresh "rs" { sessionId := 2 }) 1000001).1 =
        .error (.unauthorized "Session expired" .AUTH_UNAUTHORIZED_ACCESS)
      ↔ session0.expiredAt ≤ 1000001)
    ∧ (session0.expiredAt ≤ 1000001 →
        refreshToken cfg0 st0 (.refresh "rs" { sessionId := 2 }) 1000001 =
          (.error (.unauthorized "Session expired" .AUTH_UNAUTHORIZED_ACCESS),
           st0, [.sessionFindById 2])) :=
  refreshToken_expired_no_mutation cfg0 st0 (.refresh "rs" { sessionId := 2 })
    1000001 { sessionId := 2 } session0 (by decide) (by decide)

/-- Claim C1: for a refresh call whose token verifies and whose session is
live (expiration strictly in the future), the call returns a fresh access
token embedding the session's user id and session id; a new refresh token
embedding the same session id is returned exactly when the remaining
validity is at most one day, in which case the session is persisted with
expiration now + refresh TTL; otherwise no new refresh token is returned and
the state is unchanged. -/
theorem refreshToken_live_session_spec (cfg : Config) (st : AuthState)
    (token : Token) (now : Nat) (payload : RefreshTPayload) (session : Session)
    (hv : verifyRefreshJwt cfg.refreshSecret token = some payload)
    (hs : findSessionById st payload.sessionId = some session)
    (hlive : now < session.expiredAt) :
    (refreshToken cfg st token now).1 =
      .ok { accessToken :=
              .access cfg.accessSecret { userId := session.userId, sessionId := session.id },
            newRefreshToken :=
              if session.expiredAt - now ≤ ONE_DAY_IN_MS then
                some (.refresh cfg.refreshSecret { sessionId := session.id })
              else none }
    ∧ (refreshToken cfg st token now).2.1 =
        (if session.expiredAt - now ≤ ONE_DAY_IN_MS then
          saveSession st { session with expiredAt := now + cfg.refreshTTL }
        else st) := by
  have hexp : ¬ session.expiredAt ≤ now := Nat.not_le.mpr hlive
  by_cases hrot : session.expiredAt - now ≤ ONE_DAY_IN_MS <;>
    simp [refreshToken, hv, hs, hexp, hrot, signAccessToken, signRefreshToken,
      calculateExpirationDate]

/-- Witness for C1 at a live session within the one-day rotation window. -/
theorem refreshToken_live_session_spec_witness :
    (refreshToken cfg0 st0 (.refresh "rs" { sessionId := 2 }) 500000).1 =
      .ok { accessToken :=
              .access cfg0.accessSecret
                { userId := session0.userId, sessionId := session0.id },
            newRefreshToken :=
              if session0.expiredAt - 500000 ≤ ONE_DAY_IN_MS then
                some (.refresh cfg0.refreshSecret { sessionId := session0.id })
              else none }
    ∧ (refreshToken cfg0 st0 (.refresh "rs" { sessionId := 2 }) 500000).2.1 =
        (if session0.expiredAt - 500000 ≤ ONE_DAY_IN_MS then
          saveSession st0 { session0 with expiredAt := 500000 + cfg0.refreshTTL }
        else st0) :=
  refreshToken_live_session_spec cfg0 st0 (.refresh "rs" { sessionId := 2 })
    500000 { sessionId := 2 } session0 (by decide) (by decide) (by decide)

/-- Claim C2: a login with an email for which no user exists and a login
with an existing email but a failing password produce the very same typed
failure — `AUTH_USER_NOT_FOUND` with the message "Invalid email or password
provided" — so the two failure cases are indistinguishable to the caller. -/
theorem login_uniform_failure (cfg : Config) (st : AuthState) (now : Nat)
    (d1 d2 : LoginDto) (u : User)
    (h1 : findUserByEmail st d1.email = none)
    (h2 : findUserByEmail st d2.email = some u)
    (h3 : comparePassword u d2.password = false) :
    (login cfg st d1 now).1 = (login cfg st d2 now).1
    ∧ (login cfg st d1 now).1 =
        .error (.badRequest "Invalid email or password provided"
          .AUTH_USER_NOT_FOUND) := by
  simp [login, h1, h2, h3, BadRequestException]

/-- Witness for C2: unknown email vs wrong password for a known email. -/
theorem login_uniform_failure_witness :
    (login cfg0 st0 { email := "nobody@x", password := "pw", userAgent := "ua" } 0).1 =
      (login cfg0 st0 { email := "u@x", password := "bad", userAgent := "ua" } 0).1
    ∧ (login cfg0 st0 { email := "nobody@x", password := "pw", userAgent := "ua" } 0).1 =
        .error (.badRequest "Invalid email or password provided"
          .AUTH_USER_NOT_FOUND) :=
  login_uniform_failure cfg0 st0 0
    { email := "nobody@x", password := "pw", userAgent := "ua" }
    { email := "u@x", password := "bad", userAgent := "ua" }
    user0 (by decide) (by decide) (by decide)

/-- Claim C3: a login whose user exists, whose password verifies, and whose
user has the MFA flag set returns exactly the short-circuit result
`{user: null, mfaRequired: true, accessToken: "", refreshToken: ""}`, leaves
the state unchanged (no session record created), and performs only the user
lookup against the stores. -/
theorem login_mfa_short_circuit (cfg : Config) (st : AuthState) (d : LoginDto)
    (now : Nat) (u : User)
    (h1 : findUserByEmail st d.email = some u)
    (h2 : comparePassword u d.password = true)
    (h3 : u.enable2FA = true) :
    login cfg st d now =
      (.ok { user := none, mfaRequired := true,
             accessToken := .empty, refreshToken := .empty },
       st, [.userFindOne d.email]) := by
  simp [login, h1, h2, h3]

/-- Witness for C3 at the MFA-enabled fixture user. -/
theorem login_mfa_short_circuit_witness :
    login cfg0 st0 { email := "v@x", password := "pw", userAgent := "ua" } 0 =
      (.ok { user := none, mfaRequired := true,
             accessToken := .empty, refreshToken := .empty },
       st0, [.userFindOne "v@x"]) :=
  login_mfa_short_circuit cfg0 st0
    { email := "v@x", password := "pw", userAgent := "ua" } 0 user1
    (by decide) (by decide) (by decide)

/-- Claim C4: a login whose user exists, whose password verifies, and whose
user has MFA disabled creates exactly one new session (the user's id, the
submitted user-agent, initial expiration now + refresh TTL) and returns the
user together with an access token embedding `{userId, sessionId}` and a
refresh token embedding `{sessionId}` only, both embedding the id of that
newly created session. -/
theorem login_creates_session (cfg : Config) (st : AuthState) (d : LoginDto)
    (now : Nat) (u : User)
    (h1 : findUserByEmail st d.email = some u)
    (h2 : comparePassword u d.password = true)
    (h3 : u.enable2FA = false) :
    (login cfg st d now).1 =
      .ok { user := some u,
            accessToken :=
              .access cfg.accessSecret { userId := u.id, sessionId := st.nextId },
            refreshToken :=
              .refresh cfg.refreshSecret { sessionId := st.nextId },
            mfaRequired := false }
    ∧ (login cfg st d now).2.1.sessions =
        st.sessions ++
          [{ id := st.nextId, userId := u.id, userAgent := d.userAgent,
             expiredAt := now + cfg.refreshTTL }]
    ∧ (login cfg st d now).2.2 = [.userFindOne d.email, .sessionCreate st.nextId] := by
  simp [login, h1, h2, h3, signAccessToken, signRefreshToken]

/-- Witness for C4 at the MFA-disabled fixture user. -/
theorem login_creates_session_witness :
    (login cfg0 st0 { email := "u@x", password := "pw", userAgent := "ua2" } 77).1 =
      .ok { user := some user0,
            accessToken :=
              .access cfg0.accessSecret { userId := user0.id, sessionId := st0.nextId },
            refreshToken :=
              .refresh cfg0.refreshSecret { sessionId := st0.nextId },
            mfaRequired := false }
    ∧ (login cfg0 st0 { email := "u@x", password := "pw", userAgent := "ua2" } 77).2.1.sessions =
        st0.sessions ++
          [{ id := st0.nextId, userId := user0.id, userAgent := "ua2",
             expiredAt := 77 + cfg0.refreshTTL }]
    ∧ (login cfg0 st0 { email := "u@x", password := "pw", userAgent := "ua2" } 77).2.2 =
        [.userFindOne "u@x", .sessionCreate st0.nextId] :=
  login_creates_session cfg0 st0
    { email := "u@x", password := "pw", userAgent := "ua2" } 77 user0
    (by decide) (by decide) (by decide)

/-- Claim C10: the MFA gate runs only after credential verification: when
the user exists with the MFA flag set but the password fails, login fails
with the `AUTH_USER_NOT_FOUND` failure (never the MFA response); and any
successful result with `mfaRequired = true` implies the submitted password
verified. -/
theorem login_mfa_after_credentials (cfg : Config) (st : AuthState)
    (d : LoginDto) (now : Nat) (u : User)
    (h1 : findUserByEmail st d.email = some u) :
    (u.enable2FA = true → comparePassword u d.password = false →
        (login cfg st d now).1 =
          .error (.badRequest "Invalid email or password provided"
            .AUTH_USER_NOT_FOUND))
    ∧ (∀ r : LoginResult, (login cfg st d now).1 = .ok r → r.mfaRequired = true →
        comparePassword u d.password = true) := by
  constructor
  · intro _ hpw
    simp [login, h1, hpw, BadRequestException]
  · intro r hr _
    by_cases hpw : comparePassword u d.password = true
    · exact hpw
    · have hf : comparePassword u d.password = false := eq_false_of_ne_true hpw
      simp [login, h1, hf] at hr

/-- Witness for C10: wrong password for the MFA-enabled user fails with the
uniform failure, and the MFA response for the same user implies the correct
password was presented. -/
theorem login_mfa_after_credentials_witness :
    (login cfg0 st0 { email := "v@x", password := "bad", userAgent := "ua" } 0).1 =
      .error (.badRequest "Invalid email or password provided" .AUTH_USER_NOT_FOUND)
    ∧ comparePassword user1 "pw" = true :=
  ⟨(login_mfa_after_credentials cfg0 st0
      { email := "v@x", password := "bad", userAgent := "ua" } 0 user1
      (by decide)).1 (by decide) (by decide),
   (login_mfa_after_credentials cfg0 st0
      { email := "v@x", password := "pw", userAgent := "ua" } 0 user1
      (by decide)).2
     { user := none, mfaRequired := true, accessToken := .empty, refreshToken := .empty }
     (by rfl) (by decide)⟩

/-- Claim C7: registration with an already-used email fails with
`AUTH_EMAIL_ALREADY_EXISTS` leaving the state untouched; otherwise it creates
the user, creates exactly one EMAIL_VERIFICATION code owned by the new user
expiring 45 minutes from the creation time, creates no session, and returns
the created user (the result carries no tokens). -/
theorem register_spec (st : AuthState) (d : RegisterDto) (now : Nat) :
    (userExists st d.email = true →
        register st d now =
          (.error (.badRequest "User already exists with this email"
              .AUTH_EMAIL_ALREADY_EXISTS),
           st, [.userExists d.email]))
    ∧ (userExists st d.email = false →
        (register st d now).1 =
          .ok { user := { id := st.nextId, name := d.name, email := d.email,
                          password := d.password, enable2FA := false } }
        ∧ (register st d now).2.1.users =
            st.users ++ [{ id := st.nextId, name := d.name, email := d.email,
                           password := d.password, enable2FA := false }]
        ∧ (register st d now).2.1.verificationCodes =
            st.verificationCodes ++
              [{ id := st.nextId + 1, userId := st.nextId,
                 vtype := .EMAIL_VERIFICATION,
                 expiresAt := fortyFiveMinutesFromNow now }]
        ∧ (register st d now).2.1.sessions = st.sessions) := by
  constructor
  · intro h
    simp [register, h, BadRequestException]
  · intro h
    simp [register, h]

/-- Witness for C7: the duplicate-email branch and the fresh-email branch at
concrete inputs. -/
theorem register_spec_witness :
    register st0 { name := "w", email := "u@x", password := "p" } 0 =
      (.error (.badRequest "User already exists with this email"
          .AUTH_EMAIL_ALREADY_EXISTS),
       st0, [.userExists "u@x"])
    ∧ (register st0 { name := "w", email := "w@x", password := "p" } 50).1 =
        .ok { user := { id := st0.nextId, name := "w", email := "w@x",
                        password := "p", enable2FA := false } } :=
  ⟨(register_spec st0 { name := "w", email := "u@x", password := "p" } 0).1
      (by decide),
   ((register_spec st0 { name := "w", email := "w@x", password := "p" } 50).2
      (by decide)).1⟩

/-- Claim C9: every failure of register, login and refreshToken is one of
five typed failures, each carrying a stable machine-readable code and a
human message; no operation fails with anything outside this taxonomy. -/
theorem typed_failures (cfg : Config) (st : AuthState) (rd : RegisterDto)
    (ld : LoginDto) (tok : Token) (now : Nat) :
    (∀ e : AuthError, (register st rd now).1 = .error e →
        e = .badRequest "User already exists with this email"
              .AUTH_EMAIL_ALREADY_EXISTS)
    ∧ (∀ e : AuthError, (login cfg st ld now).1 = .error e →
        e = .badRequest "Invalid email or password provided"
              .AUTH_USER_NOT_FOUND)
    ∧ (∀ e : AuthError, (refreshToken cfg st tok now).1 = .error e →
        (e = .unauthorized "Invalid refresh token" .AUTH_UNAUTHORIZED_ACCESS
         ∨ e = .unauthorized "Session does not exist" .AUTH_UNAUTHORIZED_ACCESS
         ∨ e = .unauthorized "Session expired" .AUTH_UNAUTHORIZED_ACCESS)) := by
  refine ⟨?_, ?_, ?_⟩
  · intro e he
    by_cases h : userExists st rd.email
    · simp [register, h, BadRequestException] at he
      simp [he]
    · simp [register, h] at he
  · intro e he
    rcases hf : findUserByEmail st ld.email with _ | u
    · simp [login, hf, BadRequestException] at he
      simp [he]
    · by_cases hpw : comparePassword u ld.password = false
      · simp [login, hf, hpw, BadRequestException] at he
        simp [he]
      · by_cases h2 : u.enable2FA <;> simp [login, hf, hpw, h2] at he
  · intro e he
    rcases hv : verifyRefreshJwt cfg.refreshSecret tok with _ | p
    · simp [refreshToken, hv, UnauthorizedException] at he
      simp [he]
    · rcases hs : findSessionById st p.sessionId with _ | sess
      · simp [refreshToken, hv, hs, UnauthorizedException] at he
        simp [he]
      · by_cases hexp : sess.expiredAt ≤ now
        · simp [refreshToken, hv, hs, hexp, UnauthorizedException] at he
          simp [he]
        · by_cases hrot : sess.expiredAt - now ≤ ONE_DAY_IN_MS <;>
            simp [refreshToken, hv, hs, hexp, hrot] at he

/-- Witness for C9: each operation's failure at a concrete failing input is
the stated typed failure. -/
theorem typed_failures_witness :
    (AuthError.badRequest "User already exists with this email"
        .AUTH_EMAIL_ALREADY_EXISTS =
      .badRequest "User already exists with this email" .AUTH_EMAIL_ALREADY_EXISTS)
    ∧ (AuthError.badRequest "Invalid email or password provided"
        .AUTH_USER_NOT_FOUND =
      .badRequest "Invalid email or password provided" .AUTH_USER_NOT_FOUND)
    ∧ (AuthError.unauthorized "Invalid refresh token" .AUTH_UNAUTHORIZED_ACCESS =
        .unauthorized "Invalid refresh token" .AUTH_UNAUTHORIZED_ACCESS
       ∨ AuthError.unauthorized "Invalid refresh token" .AUTH_UNAUTHORIZED_ACCESS =
        .unauthorized "Session does not exist" .AUTH_UNAUTHORIZED_ACCESS
       ∨ AuthError.unauthorized "Invalid refresh token" .AUTH_UNAUTHORIZED_ACCESS =
        .unauthorized "Session expired" .AUTH_UNAUTHORIZED_ACCESS) :=
  ⟨(typed_failures cfg0 st0 { name := "w", email := "u@x", password := "p" }
      { email := "u@x", password := "bad", userAgent := "ua" } .empty 0).1
      (.badRequest "User already exists with this email" .AUTH_EMAIL_ALREADY_EXISTS)
      (by rfl),
   (typed_failures cfg0 st0 { name := "w", email := "u@x", password := "p" }
      { email := "u@x", password := "bad", userAgent := "ua" } .empty 0).2.1
      (.badRequest "Invalid email or password provided" .AUTH_USER_NOT_FOUND)
      (by rfl),
   (typed_failures cfg0 st0 { name := "w", email := "u@x", password := "p" }
      { email := "u@x", password := "bad", userAgent := "ua" } .empty 0).2.2
      (.unauthorized "Invalid refresh token" .AUTH_UNAUTHORIZED_ACCESS)
      (by rfl)⟩

/-- Session expirations of one state never decrease into another state:
any session of the first and any equally-identified session of the second
compare `expiredAt ≤ expiredAt`. -/
def expiredAtMonotone (st st' : AuthState) : Prop :=
  ∀ s ∈ st.sessions, ∀ s' ∈ st'.sessions, s.id = s'.id → s.expiredAt ≤ s'.expiredAt

/-- In a store whose session ids are duplicate-free, sessions with equal ids
are the same record. -/
theorem sessions_id_inj {st : AuthState}
    (hnodup : (st.sessions.map Session.id).Nodup)
    {s s' : Session} (hs : s ∈ st.sessions) (hs' : s' ∈ st.sessions)
    (h : s.id = s'.id) : s = s' :=
  List.inj_on_of_nodup_map hnodup hs hs' h

/-- A state whose sessions are unchanged is monotone over any
duplicate-free state. -/
theorem expiredAtMonotone_of_sessions_eq {st st' : AuthState}
    (hnodup : (st.sessions.map Session.id).Nodup)
    (h : st'.sessions = st.sessions) : expiredAtMonotone st st' := by
  intro s hs s' hs' hid
  rw [h] at hs'
  exact le_of_eq (congrArg Session.expiredAt (sessions_id_inj hnodup hs hs' hid))

/-- Claim C8: `Session.expiredAt` is monotonically non-decreasing across all
three operations — in a store with duplicate-free session ids below the
fresh-id counter, and with the refresh TTL at least the one-day rotation
threshold, no existing session's expiration ever decreases; in particular
the rotation update never assigns an earlier expiration. -/
theorem session_expiry_monotone (cfg : Config) (st : AuthState)
    (rd : RegisterDto) (ld : LoginDto) (tok : Token) (now : Nat)
    (hnodup : (st.sessions.map Session.id).Nodup)
    (hfresh : ∀ s ∈ st.sessions, s.id < st.nextId)
    (httl : ONE_DAY_IN_MS ≤ cfg.refreshTTL) :
    expiredAtMonotone st (register st rd now).2.1
    ∧ expiredAtMonotone st (login cfg st ld now).2.1
    ∧ expiredAtMonotone st (refreshToken cfg st tok now).2.1 := by
  refine ⟨?_, ?_, ?_⟩
  · by_cases h : userExists st rd.email <;>
      exact expiredAtMonotone_of_sessions_eq hnodup (by simp [register, h])
  · rcases hf : findUserByEmail st ld.email with _ | u
    · exact expiredAtMonotone_of_sessions_eq hnodup (by simp [login, hf])
    · by_cases hpw : comparePassword u ld.password = false
      · exact expiredAtMonotone_of_sessions_eq hnodup (by simp [login, hf, hpw])
      · by_cases h2 : u.enable2FA
        · exact expiredAtMonotone_of_sessions_eq hnodup (by simp [login, hf, hpw, h2])
        · intro s hsm s' hs' hid
          have hsess : (login cfg st ld now).2.1.sessions =
              st.sessions ++
                [{ id := st.nextId, userId := u.id, userAgent := ld.userAgent,
                   expiredAt := now + cfg.refreshTTL }] := by
            simp [login, hf, hpw, h2]
          rw [hsess] at hs'
          rcases List.mem_append.mp hs' with h' | h'
          · exact le_of_eq (congrArg Session.expiredAt
              (sessions_id_inj hnodup hsm h' hid))
          · exfalso
            have hs'eq := List.mem_singleton.mp h'
            rw [hs'eq] at hid
            simp at hid
            exact absurd hid (Nat.ne_of_lt (hfresh s hsm))
  · rcases hv : verifyRefreshJwt cfg.refreshSecret tok with _ | p
    · exact expiredAtMonotone_of_sessions_eq hnodup (by simp [refreshToken, hv])
    · rcases hs : findSessionById st p.sessionId with _ | sess
      · exact expiredAtMonotone_of_sessions_eq hnodup
          (by simp [refreshToken, hv, hs])
      · by_cases hexp : sess.expiredAt ≤ now
        · exact expiredAtMonotone_of_sessions_eq hnodup
            (by simp [refreshToken, hv, hs, hexp])
        · by_cases hrot : sess.expiredAt - now ≤ ONE_DAY_IN_MS
          · intro s hsm s' hs' hid
            have hsess : (refreshToken cfg st tok now).2.1.sessions =
                st.sessions.map (fun t => if t.id = sess.id then
                  { sess with expiredAt := now + cfg.refreshTTL } else t) := by
              simp [refreshToken, hv, hs, hexp, hrot, saveSession,
                calculateExpirationDate]
            rw [hsess] at hs'
            rcases List.mem_map.mp hs' with ⟨t, htm, hteq⟩
            by_cases hts : t.id = sess.id
            · have hsmem : sess ∈ st.sessions := List.mem_of_find?_eq_some hs
              have hteq' : s' = { sess with expiredAt := now + cfg.refreshTTL } := by
                rw [← hteq]
                simp [hts]
              have hsid : s.id = sess.id := by rw [hid, hteq']
              have hseq : s = sess := sessions_id_inj hnodup hsm hsmem hsid
              have h1 : s.expiredAt ≤ now + ONE_DAY_IN_MS := by
                rw [hseq]
                omega
              calc s.expiredAt ≤ now + ONE_DAY_IN_MS := h1
                _ ≤ now + cfg.refreshTTL := Nat.add_le_add_left httl now
                _ = s'.expiredAt := by rw [hteq']
            · have hteq' : s' = t := by
                rw [← hteq]
                simp [hts]
              subst hteq'
              exact le_of_eq (congrArg Session.expiredAt
                (sessions_id_inj hnodup hsm htm hid))
          · exact expiredAtMonotone_of_sessions_eq hnodup
              (by simp [refreshToken, hv, hs, hexp, hrot])

/-- Witness for C8: monotonicity at the fixture state for a registration, a
login, and a rotating refresh. -/
theorem session_expiry_monotone_witness :
    expiredAtMonotone st0
      (register st0 { name := "w", email := "w@x", password := "p" } 500000).2.1
    ∧ expiredAtMonotone st0
        (login cfg0 st0 { email := "u@x", password := "pw", userAgent := "ua" } 500000).2.1
    ∧ expiredAtMonotone st0
        (refreshToken cfg0 st0 (.refresh "rs" { sessionId := 2 }) 500000).2.1 :=
  session_expiry_monotone cfg0 st0 { name := "w", email := "w@x", password := "p" }
    { email := "u@x", password := "pw", userAgent := "ua" }
    (.refresh "rs" { sessionId := 2 }) 500000
    (by decide) (by decide) (by decide)

end AdvAuth
